import Mathlib

/-!
Shallow embedding, in Lean 4, of the request-authorization and resilience
layer of the lestrrat-go/okta-sdk-golang client (`okta/client.go`).

Pure fragments of the Go code are translated into executable Lean
definitions; stateful fragments are translated into explicit state-passing
functions.  Machine integers (`int`, `int64`) are modelled as `Int`,
byte values as `Nat` below 256, and fallible Go calls as `Option`/`Except`.
External collaborators whose code is not part of this repository (the
go-cache token cache, the `Cache` response-cache interface, `buildResponse`)
are modelled from the specification, and each such definition carries a
`Modelled from the spec:` doc comment.
-/

set_option maxRecDepth 4000

/-- Model of a Go `error` value as used in this layer: a message plus a flag
recording whether the error was wrapped by `backoff.Permanent` (the backoff
library does not retry permanent errors). -/
structure GoErr where
  permanent : Bool
  msg : String
deriving Repr, DecidableEq

/-- Embedding of `Get429BackoffTime` (okta/client.go lines 1614-1626).
The two response headers are modelled by their parse results: `dateEpoch`
is `some d` when the `Date` header is present and parses (as epoch seconds
`requestDate.Unix()`), `none` when it is absent or malformed, and
`resetHeader` likewise models `strconv.Atoi` of `X-Rate-Limit-Reset`.
The Go code parses `Date` first, returning `backoff.Permanent`-wrapped
errors on either parse failure, and otherwise returns
`rateLimitReset - requestDate.Unix() + 1`. -/
def Get429BackoffTime (dateEpoch : Option Int) (resetHeader : Option Int) :
    Except GoErr Int :=
  match dateEpoch with
  | none => .error { permanent := true, msg := "date header is missing or invalid" }
  | some d =>
    match resetHeader with
    | none => .error { permanent := true, msg := "X-Rate-Limit-Reset header is missing or invalid" }
    | some r => .ok (r - d + 1)

/-- Errors returned by the `Authorize` implementations
(okta/client.go, `errors.New` call sites). -/
inductive ExchangeError where
  | transport
  | parse
deriving Repr, DecidableEq

/-- Error cases surfaced by the four `Authorize` strategies. -/
inductive AuthError where
  | unidentifiedToken
  | missingSigningKey
  | emptyToken
  | exchange (e : ExchangeError)
  | nilDpopKey
  | jwkConversion (msg : String)
deriving Repr, DecidableEq

/-- Embedding of `SSWSAuth.Authorize` (okta/client.go lines 267-270).
The request's `Authorization` header is modelled as the list of values
held under that key; `http.Header.Add` appends a value to the list.
The function always returns `nil` error. -/
def SSWSAuth.Authorize (token : String) (hdr : List String) :
    Option AuthError × List String :=
  (none, hdr ++ [("SSWS ") ++ token])

/-- Embedding of `BearerAuth.Authorize` (okta/client.go lines 281-284);
identical to `SSWSAuth.Authorize` with the `Bearer` scheme. -/
def BearerAuth.Authorize (token : String) (hdr : List String) :
    Option AuthError × List String :=
  (none, hdr ++ [("Bearer ") ++ token])

/-- Repeated invocation of a static-auth step on the `Authorization`
header value list, modelling n consecutive `Authorize` calls. -/
def iterateAuth (step : List String → Option AuthError × List String) :
    Nat → List String → List String
  | 0, h => h
  | n + 1, h => iterateAuth step n (step h).2

theorem iterateAuth_append (v : String) (n : Nat) (hdr : List String) :
    iterateAuth (fun h => (none, h ++ [v])) n hdr = hdr ++ List.replicate n v := by
  induction n generalizing hdr with
  | zero => simp [iterateAuth]
  | succ k ih =>
    simp only [iterateAuth, ih, List.append_assoc, List.replicate_succ]
    simp [List.replicate_succ]

theorem sswsAuthorize_as_step (token : String) :
    SSWSAuth.Authorize token = fun h => (none, h ++ [("SSWS ") ++ token]) := rfl

theorem bearerAuthorize_as_step (token : String) :
    BearerAuth.Authorize token = fun h => (none, h ++ [("Bearer ") ++ token]) := rfl

/-- C9 counterexample: StaticToken `Authorize` is not idempotent on the
request's header state.  Starting from an empty `Authorization` value list,
two `SSWSAuth.Authorize` calls leave a different header state than one
call: `http.Header.Add` appends, so the value is duplicated. -/
theorem c9_static_auth_not_idempotent_counterexample :
    iterateAuth (SSWSAuth.Authorize "t0") 2 [] ≠
      iterateAuth (SSWSAuth.Authorize "t0") 1 [] := by
  decide

/-- C9 (amended): StaticToken `Authorize` (both SSWS and Bearer sub-modes)
always returns success (`nil` error) and touches no other state, but each
call appends one more copy of the same `Authorization` value: after n calls
the header holds n copies of the value, so the header state after n ≥ 1
calls equals the state after one call only when n = 1. -/
theorem c9_static_auth_appends (token : String) (hdr : List String) (n : Nat) :
    (SSWSAuth.Authorize token hdr).1 = none ∧
    (BearerAuth.Authorize token hdr).1 = none ∧
    iterateAuth (SSWSAuth.Authorize token) n hdr =
      hdr ++ List.replicate n (("SSWS ") ++ token) ∧
    iterateAuth (BearerAuth.Authorize token) n hdr =
      hdr ++ List.replicate n (("Bearer ") ++ token) := by
  refine ⟨rfl, rfl, ?_, ?_⟩
  · rw [sswsAuthorize_as_step, iterateAuth_append]
  · rw [bearerAuthorize_as_step, iterateAuth_append]

/-- C6: the 429 backoff delay is `X-Rate-Limit-Reset − parsed Date + 1`
(epoch seconds); a missing or unparsable `Date` or `X-Rate-Limit-Reset`
header makes `Get429BackoffTime` fail with a `backoff.Permanent`-wrapped
(non-retryable) error. -/
theorem c6_backoff_delay (dateEpoch resetHeader : Option Int) :
    (∀ d r, dateEpoch = some d → resetHeader = some r →
      Get429BackoffTime dateEpoch resetHeader = .ok (r - d + 1)) ∧
    (dateEpoch = none →
      ∃ e, Get429BackoffTime dateEpoch resetHeader = .error e ∧ e.permanent = true) ∧
    (resetHeader = none →
      ∃ e, Get429BackoffTime dateEpoch resetHeader = .error e ∧ e.permanent = true) := by
  refine ⟨?_, ?_, ?_⟩
  · intro d r hd hr
    simp [Get429BackoffTime, hd, hr]
  · intro hd
    refine ⟨{ permanent := true, msg := "date header is missing or invalid" }, ?_, rfl⟩
    simp [Get429BackoffTime, hd]
  · intro hr
    cases dateEpoch with
    | none =>
      refine ⟨{ permanent := true, msg := "date header is missing or invalid" }, ?_, rfl⟩
      simp [Get429BackoffTime]
    | some d =>
      refine ⟨{ permanent := true, msg := "X-Rate-Limit-Reset header is missing or invalid" }, ?_, rfl⟩
      simp [Get429BackoffTime, hr]

/-- C6 witness: concrete evaluations of `Get429BackoffTime` through
`c6_backoff_delay`: a response dated at epoch 100 with reset epoch 130
computes a 31-second delay, and a missing `Date` header is a permanent
error. -/
theorem c6_backoff_delay_witness :
    Get429BackoffTime (some 100) (some 130) = .ok (130 - 100 + 1) ∧
    ∃ e, Get429BackoffTime none (some 5) = .error e ∧ e.permanent = true := by
  exact ⟨(c6_backoff_delay (some 100) (some 130)).1 100 130 rfl rfl,
    (c6_backoff_delay none (some 5)).2.1 rfl⟩

/-- Truncation to a 32-bit word, modelling Go `uint32` arithmetic. -/
def w32 (n : Nat) : Nat := n % 4294967296

/-- 32-bit right rotation. -/
def rotr32 (n x : Nat) : Nat := w32 ((x >>> n) ||| (x <<< (32 - n)))

/-- SHA-256 big sigma-0. -/
def bSig0 (x : Nat) : Nat := rotr32 2 x ^^^ rotr32 13 x ^^^ rotr32 22 x

/-- SHA-256 big sigma-1. -/
def bSig1 (x : Nat) : Nat := rotr32 6 x ^^^ rotr32 11 x ^^^ rotr32 25 x

/-- SHA-256 small sigma-0. -/
def sSig0 (x : Nat) : Nat := rotr32 7 x ^^^ rotr32 18 x ^^^ (x >>> 3)

/-- SHA-256 small sigma-1. -/
def sSig1 (x : Nat) : Nat := rotr32 17 x ^^^ rotr32 19 x ^^^ (x >>> 10)

/-- SHA-256 choice function. -/
def shaCh (x y z : Nat) : Nat := (x &&& y) ^^^ ((x ^^^ 4294967295) &&& z)

/-- SHA-256 majority function. -/
def shaMaj (x y z : Nat) : Nat := (x &&& y) ^^^ (x &&& z) ^^^ (y &&& z)

/-- SHA-256 round constants. -/
def shaK : List Nat :=
  [1116352408, 1899447441, 3049323471, 3921009573, 961987163, 1508970993,
   2453635748, 2870763221, 3624381080, 310598401, 607225278, 1426881987,
   1925078388, 2162078206, 2614888103, 3248222580, 3835390401, 4022224774,
   264347078, 604807628, 770255983, 1249150122, 1555081692, 1996064986,
   2554220882, 2821834349, 2952996808, 3210313671, 3336571891, 3584528711,
   113926993, 338241895, 666307205, 773529912, 1294757372, 1396182291,
   1695183700, 1986661051, 2177026350, 2456956037, 2730485921, 2820302411,
   3259730800, 3345764771, 3516065817, 3600352804, 4094571909, 275423344,
   430227734, 506948616, 659060556, 883997877, 958139571, 1322822218,
   1537002063, 1747873779, 1955562222, 2024104815, 2227730452, 2361852424,
   2428436474, 2756734187, 3204031479, 3329325298]

/-- SHA-256 initial hash state. -/
def shaH0 : List Nat :=
  [1779033703, 3144134277, 1013904242, 2773480762, 1359893119, 2600822924,
   528734635, 1541459225]

/-- SHA-256 message padding: append 0x80, zero bytes to 56 mod 64, then the
bit length as 8 big-endian bytes. -/
def sha256Pad (msg : List Nat) : List Nat :=
  let L := msg.length
  let z := (119 - L % 64) % 64
  let bitLen := L * 8
  msg ++ [0x80] ++ List.replicate z 0 ++
    [(bitLen >>> 56) &&& 255, (bitLen >>> 48) &&& 255, (bitLen >>> 40) &&& 255,
     (bitLen >>> 32) &&& 255, (bitLen >>> 24) &&& 255, (bitLen >>> 16) &&& 255,
     (bitLen >>> 8) &&& 255, bitLen &&& 255]

/-- Group a byte list into big-endian 32-bit words. -/
def bytesToWords : List Nat → List Nat
  | a :: b :: c :: d :: rest =>
    ((a <<< 24) ||| (b <<< 16) ||| (c <<< 8) ||| d) :: bytesToWords rest
  | _ => []

/-- Split a word list into 16-word blocks; the first argument is fuel,
always called with at least the list length. -/
def wordBlocks : Nat → List Nat → List (List Nat)
  | 0, _ => []
  | _, [] => []
  | fuel + 1, ws => ws.take 16 :: wordBlocks fuel (ws.drop 16)

/-- Extend a 16-word block to the 64-word SHA-256 message schedule. -/
def extendSchedule (w0 : List Nat) : List Nat :=
  (List.range 48).foldl
    (fun w _ =>
      w ++ [w32 (sSig1 (w.getD (w.length - 2) 0) + w.getD (w.length - 7) 0 +
        sSig0 (w.getD (w.length - 15) 0) + w.getD (w.length - 16) 0)])
    w0

/-- One SHA-256 compression round on the 8-word working state. -/
def shaRound (s : List Nat) (wk : Nat × Nat) : List Nat :=
  match s with
  | [a, b, c, d, e, f, g, h] =>
    let t1 := w32 (h + bSig1 e + shaCh e f g + wk.2 + wk.1)
    let t2 := w32 (bSig0 a + shaMaj a b c)
    [w32 (t1 + t2), a, b, c, w32 (d + t1), e, f, g]
  | other => other

/-- SHA-256 compression of one 16-word block into the hash state. -/
def compressBlock (h : List Nat) (block : List Nat) : List Nat :=
  let w := extendSchedule block
  let final := (List.zip w shaK).foldl shaRound h
  (List.zip h final).map (fun p => w32 (p.1 + p.2))

/-- Serialize a 32-bit word to 4 big-endian bytes. -/
def wordToBytes (x : Nat) : List Nat :=
  [(x >>> 24) &&& 255, (x >>> 16) &&& 255, (x >>> 8) &&& 255, x &&& 255]

/-- SHA-256 of a byte list, as the 32-byte digest.  Models Go
`crypto/sha256` as used by `generateDpopJWT` (okta/client.go lines
1709-1713). -/
def sha256Bytes (msg : List Nat) : List Nat :=
  let words := bytesToWords (sha256Pad msg)
  let hs := (wordBlocks words.length words).foldl compressBlock shaH0
  (hs.map wordToBytes).flatten

/-- URL-safe base64 alphabet lookup. -/
def b64UrlChar (n : Nat) : Char :=
  ("ABCDEFGHIJKLMNOPQRSTUVWXYZabcdefghijklmnopqrstuvwxyz0123456789-_").toList.getD n 'A'

/-- Unpadded URL-safe base64 encoding of a byte list, modelling Go
`base64.RawURLEncoding.EncodeToString`. -/
def base64RawURLChars : List Nat → List Char
  | b0 :: b1 :: b2 :: rest =>
    let x := (b0 <<< 16) ||| (b1 <<< 8) ||| b2
    b64UrlChar ((x >>> 18) &&& 63) :: b64UrlChar ((x >>> 12) &&& 63) ::
      b64UrlChar ((x >>> 6) &&& 63) :: b64UrlChar (x &&& 63) :: base64RawURLChars rest
  | [b0, b1] =>
    let x := (b0 <<< 10) ||| (b1 <<< 2)
    [b64UrlChar ((x >>> 12) &&& 63), b64UrlChar ((x >>> 6) &&& 63), b64UrlChar (x &&& 63)]
  | [b0] =>
    let x := b0 <<< 4
    [b64UrlChar ((x >>> 6) &&& 63), b64UrlChar (x &&& 63)]
  | [] => []

/-- Unpadded URL-safe base64 encoding, as a string. -/
def base64RawURL (bytes : List Nat) : String :=
  String.mk (base64RawURLChars bytes)

/-- Embedding of `StringToAsciiBytes` (okta/client.go lines 1718-1726):
one byte per Unicode code point, each code point truncated to a byte
(Go `byte(r)` is `r mod 256`). -/
def StringToAsciiBytes (s : String) : List Nat :=
  s.toList.map (fun c => c.toNat % 256)

/-- UTF-8 encoding of one character, as the standard 1-4 byte big-endian
sequence; models the raw bytes of a Go string, which is UTF-8. -/
def utf8EncodeCharNat (c : Char) : List Nat :=
  let n := c.toNat
  if n < 0x80 then [n]
  else if n < 0x800 then [0xC0 ||| (n >>> 6), 0x80 ||| (n &&& 0x3F)]
  else if n < 0x10000 then
    [0xE0 ||| (n >>> 12), 0x80 ||| ((n >>> 6) &&& 0x3F), 0x80 ||| (n &&& 0x3F)]
  else
    [0xF0 ||| (n >>> 18), 0x80 ||| ((n >>> 12) &&& 0x3F),
     0x80 ||| ((n >>> 6) &&& 0x3F), 0x80 ||| (n &&& 0x3F)]

/-- Raw bytes of a string: UTF-8 encoding, modelling Go `[]byte(s)`. -/
def utf8Encode (s : String) : List Nat :=
  (s.toList.map utf8EncodeCharNat).flatten

/-- Validation of the SHA-256 embedding on the standard test vector:
SHA-256 of the ASCII string `abc`. -/
theorem sha256Bytes_abc :
    sha256Bytes (utf8Encode "abc") =
      [186, 120, 22, 191, 143, 1, 207, 234, 65, 65, 64, 222, 93, 174, 34, 35,
       176, 3, 97, 163, 150, 23, 122, 156, 180, 16, 255, 97, 242, 0, 21, 173] := by
  decide

/-- Validation of the base64 embedding composed with SHA-256 on `abc`. -/
theorem base64RawURL_sha256_abc :
    base64RawURL (sha256Bytes (utf8Encode "abc")) =
      String.mk (("ungWv48Bz-pBQUDeXa4iI7ADYaOWF3qctBD_YfIAFa0").toList) := by
  decide

/-- Model of the DPoP proof JWT produced by `generateDpopJWT`
(okta/client.go lines 1685-1716): the signing key (whose public part is
embedded as the `jwk` header) is modelled by a key identifier, and the
claims `htm`, `htu`, `nonce` and `ath` are recorded literally.  The
nondeterministic claims `jti` (random UUID) and `iat` (signing instant)
are not modelled. -/
structure DpopClaims where
  key : Nat
  htm : String
  htu : String
  nonce : String
  ath : Option String
deriving Repr, DecidableEq

/-- Embedding of `generateDpopJWT` (okta/client.go lines 1685-1716):
builds the DPoP claims; `ath` is set only when `accessToken` is non-empty,
to the unpadded URL-safe base64 encoding of the SHA-256 digest of
`StringToAsciiBytes accessToken`. -/
def generateDpopJWT (privateKey : Nat) (httpMethod URL nonce accessToken : String) :
    DpopClaims :=
  { key := privateKey, htm := httpMethod, htu := URL, nonce := nonce,
    ath := if accessToken = "" then none
      else some (base64RawURL (sha256Bytes (StringToAsciiBytes accessToken))) }

theorem asciiBytes_eq_utf8_of_ascii (l : List Char) (h : ∀ c ∈ l, c.toNat < 128) :
    l.map (fun c => c.toNat % 256) = (l.map utf8EncodeCharNat).flatten := by
  induction l with
  | nil => simp
  | cons c rest ih =>
    have hc : c.toNat < 128 := h c (List.mem_cons_self c rest)
    have henc : utf8EncodeCharNat c = [c.toNat] := by
      unfold utf8EncodeCharNat
      rw [if_pos]
      exact lt_of_lt_of_le hc (by norm_num)
    have hmod : c.toNat % 256 = c.toNat := Nat.mod_eq_of_lt (by omega)
    simp only [List.map_cons, List.flatten_cons, henc, hmod]
    rw [ih (fun x hx => h x (List.mem_cons_of_mem c hx))]
    rfl

/-- C8 counterexample: the `ath` claim is not, in general, the SHA-256
digest of the access token's raw (UTF-8) bytes.  For the one-character
token `é` (code point 0xE9), `StringToAsciiBytes` truncates the code point
to the single byte 0xE9, while the raw UTF-8 bytes are 0xC3 0xA9, so the
generated `ath` differs from the digest of the raw bytes. -/
theorem c8_ath_raw_bytes_counterexample :
    (generateDpopJWT 0 "POST" "https://x" "n" "é").ath ≠
      some (base64RawURL (sha256Bytes (utf8Encode "é"))) := by
  decide

/-- C8 (amended): for every DPoP proof generated with a non-empty
access-token string, the `ath` claim equals the unpadded URL-safe base64
encoding of the SHA-256 digest of the byte sequence obtained by truncating
each of the token's code points to one byte (`StringToAsciiBytes`); this
coincides with the token's raw UTF-8 bytes whenever the token is ASCII.
The `ath` claim is absent when no access token is supplied. -/
theorem c8_ath_claim (k : Nat) (m u n tok : String) :
    (tok ≠ "" →
      (generateDpopJWT k m u n tok).ath =
        some (base64RawURL (sha256Bytes (StringToAsciiBytes tok)))) ∧
    (tok = "" → (generateDpopJWT k m u n tok).ath = none) ∧
    ((∀ c ∈ tok.toList, c.toNat < 128) → StringToAsciiBytes tok = utf8Encode tok) := by
  refine ⟨?_, ?_, ?_⟩
  · intro h
    simp [generateDpopJWT, h]
  · intro h
    simp [generateDpopJWT, h]
  · intro h
    unfold StringToAsciiBytes utf8Encode
    exact asciiBytes_eq_utf8_of_ascii tok.toList h

/-- C8 witness: for the access token `abc` the generated `ath` claim is
the unpadded URL-safe base64 encoding of SHA-256 of the raw bytes of
`abc`, obtained by applying `c8_ath_claim` at that token. -/
theorem c8_ath_claim_witness :
    (generateDpopJWT 0 "POST" "https://org/api" "n1" "abc").ath =
      some (base64RawURL (sha256Bytes (utf8Encode "abc"))) := by
  have h := c8_ath_claim 0 "POST" "https://org/api" "n1" "abc"
  have h1 := h.1 (by decide)
  have h3 := h.2.2 (by decide)
  rw [h1, h3]

/-- The token endpoint's JSON success payload `RequestAccessToken`
(okta/client.go lines 1637-1642). -/
structure RequestAccessToken where
  tokenType : String
  expiresIn : Int
  accessToken : String
  scope : String
deriving Repr, DecidableEq

/-- One scripted token-endpoint HTTP response, as consumed by the token
exchange: its status code, body, `Dpop-Nonce` response header, and the
outcome of parsing the body.  `parsedToken` is `Modelled from the spec:`
it stands for `buildResponse` (defined in this repository outside
okta/client.go), which deserializes the JSON body into a
`RequestAccessToken` and fails on a malformed body (`none`). -/
structure TokenResponse where
  statusCode : Nat
  body : String
  dpopNonceHeader : String
  parsedToken : Option RequestAccessToken
deriving Repr, DecidableEq

/-- One token-endpoint request as sent on the wire: whether it carried a
`DPoP` header and, if so, which proof claims. -/
structure SentRequest where
  dpop : Option DpopClaims
deriving Repr, DecidableEq, Inhabited

/-- Result of the token exchange, mirroring the Go quadruple
`(*RequestAccessToken, string, *rsa.PrivateKey, error)` plus the trace of
token-endpoint calls actually issued. -/
structure ExchangeOut where
  token : Option RequestAccessToken
  nonce : String
  key : Option Nat
  error : Option ExchangeError
  calls : List SentRequest
deriving Repr, DecidableEq

/-- Substring test, modelling Go `strings.Contains`. -/
def strContains (hay needle : String) : Bool :=
  (List.range (hay.toList.length + 1)).any
    (fun i => needle.toList.isPrefixOf (hay.toList.drop i))

/-- Embedding of `getAccessTokenForDpopPrivateKey` (okta/client.go lines
754-809).  Each invocation mints a fresh 2048-bit RSA key — modelled by
the counter `keyCtr` — builds a DPoP proof with the current nonce and an
empty access token, sets it as the request's `DPoP` header, posts, and:
on a ≥300 response containing `use_dpop_nonce` recurses with the
`Dpop-Nonce` response header as the new nonce; on any other ≥300 response
returns the local `err` variable, which is provably `nil` at that point
(it was last assigned by the checked `io.ReadAll`); on success parses the
body via `buildResponse`, *discarding* the parse error, and returns the
parsed token together with the nonce and key used on this final attempt.
An exhausted script models a transport failure of `httpClient.Do`. -/
def getAccessTokenForDpopPrivateKey (keyCtr : Nat) (orgURL nonce : String) :
    List TokenResponse → ExchangeOut
  | [] => { token := none, nonce := "", key := none, error := some .transport, calls := [] }
  | r :: rest =>
    let dpopJWT := generateDpopJWT keyCtr ("POST") (orgURL ++ "/oauth2/v1/token") nonce ("")
    let sent : SentRequest := { dpop := some dpopJWT }
    if 300 ≤ r.statusCode then
      if strContains r.body ("use_dpop_nonce") then
        let out := getAccessTokenForDpopPrivateKey (keyCtr + 1) orgURL r.dpopNonceHeader rest
        { out with calls := sent :: out.calls }
      else
        { token := none, nonce := "", key := none, error := none, calls := [sent] }
    else
      { token := r.parsedToken, nonce := nonce, key := some keyCtr, error := none,
        calls := [sent] }

/-- Embedding of `getAccessTokenForPrivateKey` (okta/client.go lines
697-752).  The initial client-credentials POST carries no `DPoP` header.
On a ≥300 response containing `invalid_dpop_proof` it enters the DPoP
handshake (`getAccessTokenForDpopPrivateKey` with an empty nonce and a
fresh key counter); on any other ≥300 response it returns the local `err`
variable, which is provably `nil` at that point (it was last assigned by
the checked `createClientAssertion`); on success it parses the body via
`buildResponse`, this time propagating the parse error, and returns the
token with an empty nonce and no DPoP key. -/
def getAccessTokenForPrivateKey (orgURL : String) :
    List TokenResponse → ExchangeOut
  | [] => { token := none, nonce := "", key := none, error := some .transport, calls := [] }
  | r :: rest =>
    let sent : SentRequest := { dpop := none }
    if 300 ≤ r.statusCode then
      if strContains r.body ("invalid_dpop_proof") then
        let out := getAccessTokenForDpopPrivateKey 0 orgURL ("") rest
        { out with calls := sent :: out.calls }
      else
        { token := none, nonce := "", key := none, error := none, calls := [sent] }
    else
      match r.parsedToken with
      | none => { token := none, nonce := "", key := none, error := some .parse, calls := [sent] }
      | some tok =>
        { token := some tok, nonce := "", key := none, error := none, calls := [sent] }

/-- C3: a token endpoint answering the client-credentials exchange with a
≥300 `invalid_dpop_proof` response, then a ≥300 `use_dpop_nonce` response
with `Dpop-Nonce: abc`, then a 2xx response, yields exactly 3
token-endpoint calls; the third call carries a `Dpop` proof whose `nonce`
claim is `abc`, and the nonce and signing key used on that final
successful attempt are exactly the ones returned for caching. -/
theorem c3_dpop_handshake_convergence (e1 e2 e3 : TokenResponse)
    (rest : List TokenResponse) (tok : RequestAccessToken) (orgURL : String)
    (h1 : 300 ≤ e1.statusCode)
    (h2 : strContains e1.body ("invalid_dpop_proof") = true)
    (h3 : 300 ≤ e2.statusCode)
    (h4 : strContains e2.body ("use_dpop_nonce") = true)
    (h5 : e2.dpopNonceHeader = "abc")
    (h6 : e3.statusCode < 300)
    (h7 : e3.parsedToken = some tok) :
    (getAccessTokenForPrivateKey orgURL (e1 :: e2 :: e3 :: rest)).calls.length = 3 ∧
    ∃ c, ((getAccessTokenForPrivateKey orgURL (e1 :: e2 :: e3 :: rest)).calls.getD 2
        default).dpop = some c ∧
      c.nonce = "abc" ∧
      (getAccessTokenForPrivateKey orgURL (e1 :: e2 :: e3 :: rest)).nonce = "abc" ∧
      (getAccessTokenForPrivateKey orgURL (e1 :: e2 :: e3 :: rest)).key = some c.key ∧
      (getAccessTokenForPrivateKey orgURL (e1 :: e2 :: e3 :: rest)).token = some tok ∧
      (getAccessTokenForPrivateKey orgURL (e1 :: e2 :: e3 :: rest)).error = none := by
  simp only [getAccessTokenForPrivateKey, getAccessTokenForDpopPrivateKey]
  rw [if_pos h1, if_pos h2, if_pos h3, if_pos h4, if_neg (by omega), h5, h7]
  refine ⟨rfl, generateDpopJWT 1 ("POST") (orgURL ++ ("/oauth2/v1/token")) ("abc") (""),
    rfl, rfl, rfl, rfl, rfl, rfl⟩

/-- C3 witness: the handshake convergence evaluated on a concrete script:
a 400 `invalid_dpop_proof` response, a 400 `use_dpop_nonce` response with
nonce `abc`, and a 200 response carrying a DPoP access token. -/
theorem c3_dpop_handshake_convergence_witness :
    (getAccessTokenForPrivateKey ("https://org")
      [{ statusCode := 400, body := "invalid_dpop_proof", dpopNonceHeader := "", parsedToken := none },
       { statusCode := 400, body := "use_dpop_nonce", dpopNonceHeader := "abc", parsedToken := none },
       { statusCode := 200, body := "ok", dpopNonceHeader := "",
         parsedToken := some { tokenType := "DPoP", expiresIn := 3600, accessToken := "tok", scope := "s" } }]).calls.length = 3 ∧
    ∃ c, ((getAccessTokenForPrivateKey ("https://org")
      [{ statusCode := 400, body := "invalid_dpop_proof", dpopNonceHeader := "", parsedToken := none },
       { statusCode := 400, body := "use_dpop_nonce", dpopNonceHeader := "abc", parsedToken := none },
       { statusCode := 200, body := "ok", dpopNonceHeader := "",
         parsedToken := some { tokenType := "DPoP", expiresIn := 3600, accessToken := "tok", scope := "s" } }]).calls.getD 2 default).dpop = some c ∧
      c.nonce = "abc" ∧
      (getAccessTokenForPrivateKey ("https://org")
      [{ statusCode := 400, body := "invalid_dpop_proof", dpopNonceHeader := "", parsedToken := none },
       { statusCode := 400, body := "use_dpop_nonce", dpopNonceHeader := "abc", parsedToken := none },
       { statusCode := 200, body := "ok", dpopNonceHeader := "",
         parsedToken := some { tokenType := "DPoP", expiresIn := 3600, accessToken := "tok", scope := "s" } }]).nonce = "abc" ∧
      (getAccessTokenForPrivateKey ("https://org")
      [{ statusCode := 400, body := "invalid_dpop_proof", dpopNonceHeader := "", parsedToken := none },
       { statusCode := 400, body := "use_dpop_nonce", dpopNonceHeader := "abc", parsedToken := none },
       { statusCode := 200, body := "ok", dpopNonceHeader := "",
         parsedToken := some { tokenType := "DPoP", expiresIn := 3600, accessToken := "tok", scope := "s" } }]).key = some c.key ∧
      (getAccessTokenForPrivateKey ("https://org")
      [{ statusCode := 400, body := "invalid_dpop_proof", dpopNonceHeader := "", parsedToken := none },
       { statusCode := 400, body := "use_dpop_nonce", dpopNonceHeader := "abc", parsedToken := none },
       { statusCode := 200, body := "ok", dpopNonceHeader := "",
         parsedToken := some { tokenType := "DPoP", expiresIn := 3600, accessToken := "tok", scope := "s" } }]).token = some { tokenType := "DPoP", expiresIn := 3600, accessToken := "tok", scope := "s" } ∧
      (getAccessTokenForPrivateKey ("https://org")
      [{ statusCode := 400, body := "invalid_dpop_proof", dpopNonceHeader := "", parsedToken := none },
       { statusCode := 400, body := "use_dpop_nonce", dpopNonceHeader := "abc", parsedToken := none },
       { statusCode := 200, body := "ok", dpopNonceHeader := "",
         parsedToken := some { tokenType := "DPoP", expiresIn := 3600, accessToken := "tok", scope := "s" } }]).error = none := by
  exact c3_dpop_handshake_convergence _ _ _ [] _ ("https://org")
    (by decide) (by decide) (by decide) (by decide) rfl (by decide) rfl

/-- C4 (code bug): on a ≥300 token-endpoint response without the DPoP
markers, the exchange terminates after that single call but returns a
`nil` error alongside a `nil` token — the `err` returned at
okta/client.go:743 (and likewise at line 801 inside the DPoP handshake)
is provably `nil` there, so the permanent HTTP failure is *not* surfaced
to the caller.  Evaluated at a 400 `invalid_client` response for the
plain exchange, and at a 403 `access_denied` second response for the
DPoP-handshake state. -/
theorem c4_permanent_http_error_dropped :
    ((getAccessTokenForPrivateKey ("https://org")
        [{ statusCode := 400, body := "invalid_client", dpopNonceHeader := "", parsedToken := none }]).error = none ∧
      (getAccessTokenForPrivateKey ("https://org")
        [{ statusCode := 400, body := "invalid_client", dpopNonceHeader := "", parsedToken := none }]).token = none ∧
      (getAccessTokenForPrivateKey ("https://org")
        [{ statusCode := 400, body := "invalid_client", dpopNonceHeader := "", parsedToken := none }]).calls.length = 1) ∧
    ((getAccessTokenForPrivateKey ("https://org")
        [{ statusCode := 400, body := "invalid_dpop_proof", dpopNonceHeader := "", parsedToken := none },
         { statusCode := 403, body := "access_denied", dpopNonceHeader := "", parsedToken := none }]).error = none ∧
      (getAccessTokenForPrivateKey ("https://org")
        [{ statusCode := 400, body := "invalid_dpop_proof", dpopNonceHeader := "", parsedToken := none },
         { statusCode := 403, body := "access_denied", dpopNonceHeader := "", parsedToken := none }]).token = none ∧
      (getAccessTokenForPrivateKey ("https://org")
        [{ statusCode := 400, body := "invalid_dpop_proof", dpopNonceHeader := "", parsedToken := none },
         { statusCode := 403, body := "access_denied", dpopNonceHeader := "", parsedToken := none }]).calls.length = 2) := by
  decide

/-- Modelled from the spec: the Token Cache (the third-party go-cache
instance held in `APIClient.tokenCache`, not part of this repository).
It holds the three entries written by the `Authorize` strategies
(`OKTA_ACCESS_TOKEN`, `DPOP_OKTA_ACCESS_TOKEN_NONCE`,
`DPOP_OKTA_ACCESS_TOKEN_PRIVATE_KEY`), each as a value paired with its
absolute expiry instant (seconds).  The stored private key is itself
optional because the non-DPoP exchange stores a `nil` key. -/
structure TokenCache where
  accessToken : Option (String × Int)
  nonce : Option (String × Int)
  dpopKey : Option (Option Nat × Int)
deriving Repr, DecidableEq

/-- Modelled from the spec: go-cache `Get` at instant `now` — a cached
entry is live strictly before its expiry instant and treated as expired
at or after it. -/
def cacheGetAt {α : Type} (now : Int) : Option (α × Int) → Option α
  | none => none
  | some (v, e) => if now < e then some v else none

theorem cacheGetAt_isSome_iff {α : Type} (now e : Int) (v : α) :
    (cacheGetAt now (some (v, e))).isSome = true ↔ now < e := by
  by_cases h : now < e <;> simp [cacheGetAt, h]

/-- The pending outbound request's headers touched by `Authorize`:
the `Authorization` value list (`Add` appends, `Set` replaces), the
`Dpop` header and the `x-okta-user-agent-extended` marker. -/
structure ReqHeaders where
  authorization : List String
  dpop : Option DpopClaims
  uaExtended : Option String
deriving Repr, DecidableEq

/-- Result of one `Authorize` call on the credential-backed strategies:
the Go error, the request headers after the call, the token cache after
the call, the number of token-endpoint calls issued, and whether the
credential-acquisition function was invoked at all. -/
structure AuthOut where
  error : Option AuthError
  headers : ReqHeaders
  cache : TokenCache
  endpointCalls : Nat
  invokedExchange : Bool
deriving Repr, DecidableEq

/-- Embedding of the cached-credential branch of `Authorize`, duplicated
verbatim in the Go source for the three strategies (okta/client.go lines
334-355, 438-459 and 542-563): `Add` the cached `Authorization` value;
if a live non-empty DPoP nonce is cached, require the cached signing key
(else `Using Dpop but signing key not found`), require the cached token
to split into exactly two space-separated parts (else
`Unidentified access token`), and attach a fresh DPoP proof bound to
(method, URL, cached nonce, access-token part) plus the extended
user-agent marker. -/
def cachedTokenAuthorize (tc : TokenCache) (hdr : ReqHeaders) (method URL : String)
    (now : Int) (tok : String) : Option AuthError × ReqHeaders :=
  let hdr1 := { hdr with authorization := hdr.authorization ++ [tok] }
  match cacheGetAt now tc.nonce with
  | some n =>
    if n = "" then (none, hdr1)
    else
      match cacheGetAt now tc.dpopKey with
      | some (some k) =>
        let res := tok.splitOn (" ")
        if res.length ≠ 2 then (some .unidentifiedToken, hdr1)
        else
          let dj := generateDpopJWT k method URL n (res.getD 1 (""))
          (none, { hdr1 with dpop := some dj, uaExtended := some ("isDPoP:true") })
      | some none => (some .missingSigningKey, hdr1)
      | none => (some .missingSigningKey, hdr1)
  | none => (none, hdr1)

/-- Embedding of the post-exchange tail of `Authorize`, duplicated
verbatim for the three strategies (okta/client.go lines 370-395, 461-486
and 582-607): propagate an exchange error; report
`Empty access token` on a `nil` token; `Set` the `Authorization` header to
`tokenType accessToken`; for a DPoP token attach a proof built with the
returned nonce and key (a `nil` returned key would make the Go code
dereference a nil pointer, modelled as the `nilDpopKey` error); then store
the composed `Authorization` value, the returned nonce and the returned
key in the token cache, all under the expiry `ExpiresIn - 2` seconds from
now. -/
def finishTokenExchange (tc : TokenCache) (hdr : ReqHeaders) (method URL : String)
    (now : Int) (ex : ExchangeOut) : AuthOut :=
  match ex.error with
  | some e =>
    { error := some (.exchange e), headers := hdr, cache := tc,
      endpointCalls := ex.calls.length, invokedExchange := true }
  | none =>
    match ex.token with
    | none =>
      { error := some .emptyToken, headers := hdr, cache := tc,
        endpointCalls := ex.calls.length, invokedExchange := true }
    | some tok =>
      let authVal := tok.tokenType ++ (" ") ++ tok.accessToken
      let hdr1 := { hdr with authorization := [authVal] }
      if tok.tokenType = "DPoP" then
        match ex.key with
        | none =>
          { error := some .nilDpopKey, headers := hdr1, cache := tc,
            endpointCalls := ex.calls.length, invokedExchange := true }
        | some k =>
          let dj := generateDpopJWT k method URL ex.nonce tok.accessToken
          let hdr2 := { hdr1 with dpop := some dj, uaExtended := some ("isDPoP:true") }
          { error := none, headers := hdr2,
            cache := { accessToken := some (authVal, now + (tok.expiresIn - 2)),
                       nonce := some (ex.nonce, now + (tok.expiresIn - 2)),
                       dpopKey := some (ex.key, now + (tok.expiresIn - 2)) },
            endpointCalls := ex.calls.length, invokedExchange := true }
      else
        { error := none, headers := hdr1,
          cache := { accessToken := some (authVal, now + (tok.expiresIn - 2)),
                     nonce := some (ex.nonce, now + (tok.expiresIn - 2)),
                     dpopKey := some (ex.key, now + (tok.expiresIn - 2)) },
          endpointCalls := ex.calls.length, invokedExchange := true }

/-- Embedding of `PrivateKeyAuth.Authorize` (okta/client.go lines
333-397).  A live non-empty cached access token takes the cached branch;
otherwise the strategy builds a signer and client assertion (modelled as
always succeeding for a well-configured client) and runs the
client-credentials exchange against the scripted token endpoint. -/
def PrivateKeyAuth.Authorize (tc : TokenCache) (hdr : ReqHeaders) (method URL : String)
    (now : Int) (orgURL : String) (script : List TokenResponse) : AuthOut :=
  match cacheGetAt now tc.accessToken with
  | some tok =>
    if tok = "" then
      finishTokenExchange tc hdr method URL now (getAccessTokenForPrivateKey orgURL script)
    else
      let r := cachedTokenAuthorize tc hdr method URL now tok
      { error := r.1, headers := r.2, cache := tc, endpointCalls := 0,
        invokedExchange := false }
  | none =>
    finishTokenExchange tc hdr method URL now (getAccessTokenForPrivateKey orgURL script)

/-- Embedding of `JWTAuth.Authorize` (okta/client.go lines 437-488); the
cached branch is identical to `PrivateKeyAuth.Authorize`, and the miss
branch uses the caller-supplied client assertion (passing an empty client
id and `nil` signer to the exchange, which does not change its observable
behaviour here). -/
def JWTAuth.Authorize (tc : TokenCache) (hdr : ReqHeaders) (method URL : String)
    (now : Int) (orgURL : String) (script : List TokenResponse) : AuthOut :=
  match cacheGetAt now tc.accessToken with
  | some tok =>
    if tok = "" then
      finishTokenExchange tc hdr method URL now (getAccessTokenForPrivateKey orgURL script)
    else
      let r := cachedTokenAuthorize tc hdr method URL now tok
      { error := r.1, headers := r.2, cache := tc, endpointCalls := 0,
        invokedExchange := false }
  | none =>
    finishTokenExchange tc hdr method URL now (getAccessTokenForPrivateKey orgURL script)

/-- Embedding of `JWKAuth.Authorize` (okta/client.go lines 541-609); the
cached branch is identical to `PrivateKeyAuth.Authorize`, and the miss
branch first converts the configured JWK set to a private key
(`convertJWKToPrivateKey`, whose outcome is the `convert` argument) before
signing and exchanging as `PrivateKeyAuth` does. -/
def JWKAuth.Authorize (convert : Except String String) (tc : TokenCache)
    (hdr : ReqHeaders) (method URL : String) (now : Int) (orgURL : String)
    (script : List TokenResponse) : AuthOut :=
  match cacheGetAt now tc.accessToken with
  | some tok =>
    if tok = "" then
      match convert with
      | .error m =>
        { error := some (.jwkConversion m), headers := hdr, cache := tc,
          endpointCalls := 0, invokedExchange := false }
      | .ok _ =>
        finishTokenExchange tc hdr method URL now (getAccessTokenForPrivateKey orgURL script)
    else
      let r := cachedTokenAuthorize tc hdr method URL now tok
      { error := r.1, headers := r.2, cache := tc, endpointCalls := 0,
        invokedExchange := false }
  | none =>
    match convert with
    | .error m =>
      { error := some (.jwkConversion m), headers := hdr, cache := tc,
        endpointCalls := 0, invokedExchange := false }
    | .ok _ =>
      finishTokenExchange tc hdr method URL now (getAccessTokenForPrivateKey orgURL script)

theorem finishTokenExchange_success (tc : TokenCache) (hdr : ReqHeaders)
    (method URL : String) (now : Int) (ex : ExchangeOut) (tk : RequestAccessToken)
    (herr : ex.error = none) (htok : ex.token = some tk)
    (hkey : tk.tokenType = "DPoP" → ex.key.isSome = true) :
    (finishTokenExchange tc hdr method URL now ex).cache =
      { accessToken := some (tk.tokenType ++ (" ") ++ tk.accessToken,
          now + (tk.expiresIn - 2)),
        nonce := some (ex.nonce, now + (tk.expiresIn - 2)),
        dpopKey := some (ex.key, now + (tk.expiresIn - 2)) } ∧
    (finishTokenExchange tc hdr method URL now ex).error = none := by
  unfold finishTokenExchange
  rw [herr, htok]
  by_cases hd : tk.tokenType = "DPoP"
  · obtain ⟨k, hk⟩ := Option.isSome_iff_exists.mp (hkey hd)
    rw [hk]
    simp [hd]
  · simp [hd]

theorem cachedTokenAuthorize_authorization (tc : TokenCache) (hdr : ReqHeaders)
    (method URL : String) (now : Int) (tok : String) :
    (cachedTokenAuthorize tc hdr method URL now tok).2.authorization =
      hdr.authorization ++ [tok] := by
  unfold cachedTokenAuthorize
  cases cacheGetAt now tc.nonce with
  | none => rfl
  | some n =>
    by_cases hn : n = ""
    · simp [hn]
    · cases hk : cacheGetAt now tc.dpopKey with
      | none => simp [hn, hk]
      | some ko =>
        cases ko with
        | none => simp [hn, hk]
        | some k =>
          by_cases hl : (tok.splitOn (" ")).length = 2
          · simp [hn, hk, hl]
          · simp [hn, hk, hl]

/-- C1: on every successful token exchange performed during `Authorize`
(PrivateKeyAuth, JWTAuth and JWKAuth alike), the composed access token,
the DPoP nonce and the DPoP signing key are all stored in the token cache
with the same expiry, `ExpiresIn - 2` seconds after the call; a cached
credential is live strictly before that instant and treated as expired at
or after it. -/
theorem c1_token_cache_shared_ttl (tc : TokenCache) (hdr : ReqHeaders)
    (method URL : String) (now : Int) (orgURL sk : String)
    (script : List TokenResponse) (tk : RequestAccessToken)
    (hmiss : cacheGetAt now tc.accessToken = none)
    (herr : (getAccessTokenForPrivateKey orgURL script).error = none)
    (htok : (getAccessTokenForPrivateKey orgURL script).token = some tk)
    (hkey : tk.tokenType = "DPoP" →
      (getAccessTokenForPrivateKey orgURL script).key.isSome = true)
    (hN : 2 < tk.expiresIn) :
    (PrivateKeyAuth.Authorize tc hdr method URL now orgURL script).cache =
      { accessToken := some (tk.tokenType ++ (" ") ++ tk.accessToken,
          now + (tk.expiresIn - 2)),
        nonce := some ((getAccessTokenForPrivateKey orgURL script).nonce,
          now + (tk.expiresIn - 2)),
        dpopKey := some ((getAccessTokenForPrivateKey orgURL script).key,
          now + (tk.expiresIn - 2)) } ∧
    (JWTAuth.Authorize tc hdr method URL now orgURL script).cache =
      (PrivateKeyAuth.Authorize tc hdr method URL now orgURL script).cache ∧
    (JWKAuth.Authorize (.ok sk) tc hdr method URL now orgURL script).cache =
      (PrivateKeyAuth.Authorize tc hdr method URL now orgURL script).cache ∧
    (∀ t : Int,
      (cacheGetAt t
        (PrivateKeyAuth.Authorize tc hdr method URL now orgURL script).cache.accessToken).isSome = true ↔
        t < now + (tk.expiresIn - 2)) ∧
    (∀ t : Int,
      (cacheGetAt t
        (PrivateKeyAuth.Authorize tc hdr method URL now orgURL script).cache.nonce).isSome = true ↔
        t < now + (tk.expiresIn - 2)) ∧
    (∀ t : Int,
      (cacheGetAt t
        (PrivateKeyAuth.Authorize tc hdr method URL now orgURL script).cache.dpopKey).isSome = true ↔
        t < now + (tk.expiresIn - 2)) := by
  have hfin := finishTokenExchange_success tc hdr method URL now
    (getAccessTokenForPrivateKey orgURL script) tk herr htok hkey
  have hpk : (PrivateKeyAuth.Authorize tc hdr method URL now orgURL script).cache =
      { accessToken := some (tk.tokenType ++ (" ") ++ tk.accessToken,
          now + (tk.expiresIn - 2)),
        nonce := some ((getAccessTokenForPrivateKey orgURL script).nonce,
          now + (tk.expiresIn - 2)),
        dpopKey := some ((getAccessTokenForPrivateKey orgURL script).key,
          now + (tk.expiresIn - 2)) } := by
    unfold PrivateKeyAuth.Authorize
    rw [hmiss]
    exact hfin.1
  have hjwt : (JWTAuth.Authorize tc hdr method URL now orgURL script).cache =
      (PrivateKeyAuth.Authorize tc hdr method URL now orgURL script).cache := by
    unfold JWTAuth.Authorize PrivateKeyAuth.Authorize
    rw [hmiss]
  have hjwk : (JWKAuth.Authorize (.ok sk) tc hdr method URL now orgURL script).cache =
      (PrivateKeyAuth.Authorize tc hdr method URL now orgURL script).cache := by
    unfold JWKAuth.Authorize PrivateKeyAuth.Authorize
    rw [hmiss]
  refine ⟨hpk, hjwt, hjwk, ?_, ?_, ?_⟩
  · intro t
    rw [hpk]
    exact cacheGetAt_isSome_iff t (now + (tk.expiresIn - 2)) _
  · intro t
    rw [hpk]
    exact cacheGetAt_isSome_iff t (now + (tk.expiresIn - 2)) _
  · intro t
    rw [hpk]
    exact cacheGetAt_isSome_iff t (now + (tk.expiresIn - 2)) _

/-- An empty token cache, used by concrete evaluations. -/
def emptyTC : TokenCache := { accessToken := none, nonce := none, dpopKey := none }

/-- Empty request headers, used by concrete evaluations. -/
def emptyHdr : ReqHeaders := { authorization := [], dpop := none, uaExtended := none }

/-- A concrete Bearer access token with `expires_in = 3600`. -/
def bearerTok : RequestAccessToken :=
  { tokenType := "Bearer", expiresIn := 3600, accessToken := "xyz", scope := "s" }

/-- A one-response script: the token endpoint answers 200 with `bearerTok`. -/
def bearerScript : List TokenResponse :=
  [{ statusCode := 200, body := "ok", dpopNonceHeader := "", parsedToken := some bearerTok }]

/-- C1 witness: evaluating `c1_token_cache_shared_ttl` on an empty cache
and a token endpoint answering 200 with a Bearer token of
`expires_in = 3600` at instant 0: the access token is cached until
instant 3598, still live at 3597 and expired at 3598. -/
theorem c1_token_cache_shared_ttl_witness :
    (PrivateKeyAuth.Authorize emptyTC emptyHdr ("GET") ("https://org/api") 0
      ("https://org") bearerScript).cache.accessToken = some (("Bearer xyz"), 3598) ∧
    (cacheGetAt 3597 (PrivateKeyAuth.Authorize emptyTC emptyHdr ("GET")
      ("https://org/api") 0 ("https://org") bearerScript).cache.accessToken).isSome = true ∧
    (cacheGetAt 3598 (PrivateKeyAuth.Authorize emptyTC emptyHdr ("GET")
      ("https://org/api") 0 ("https://org") bearerScript).cache.accessToken).isSome = false := by
  have h := c1_token_cache_shared_ttl emptyTC emptyHdr ("GET") ("https://org/api") 0
    ("https://org") ("sk") bearerScript bearerTok
    rfl rfl rfl (fun hd => absurd hd (by decide)) (by norm_num [bearerTok])
  refine ⟨?_, ?_, ?_⟩
  · rw [h.1]
    decide
  · refine (h.2.2.2.1 3597).mpr ?_
    norm_num [bearerTok]
  · rw [Bool.eq_false_iff]
    intro hb
    have hlt := (h.2.2.2.1 3598).mp hb
    norm_num [bearerTok] at hlt

theorem privateKeyAuthorize_hit (tc : TokenCache) (hdr : ReqHeaders)
    (method URL : String) (now : Int) (orgURL : String)
    (script : List TokenResponse) (v : String)
    (hhit : cacheGetAt now tc.accessToken = some v) (hv : v ≠ "") :
    PrivateKeyAuth.Authorize tc hdr method URL now orgURL script =
      { error := (cachedTokenAuthorize tc hdr method URL now v).1,
        headers := (cachedTokenAuthorize tc hdr method URL now v).2,
        cache := tc, endpointCalls := 0, invokedExchange := false } := by
  unfold PrivateKeyAuth.Authorize
  simp only [hhit]
  rw [if_neg hv]

theorem jwtAuthorize_hit (tc : TokenCache) (hdr : ReqHeaders)
    (method URL : String) (now : Int) (orgURL : String)
    (script : List TokenResponse) (v : String)
    (hhit : cacheGetAt now tc.accessToken = some v) (hv : v ≠ "") :
    JWTAuth.Authorize tc hdr method URL now orgURL script =
      { error := (cachedTokenAuthorize tc hdr method URL now v).1,
        headers := (cachedTokenAuthorize tc hdr method URL now v).2,
        cache := tc, endpointCalls := 0, invokedExchange := false } := by
  unfold JWTAuth.Authorize
  simp only [hhit]
  rw [if_neg hv]

theorem jwkAuthorize_hit (convert : Except String String) (tc : TokenCache)
    (hdr : ReqHeaders) (method URL : String) (now : Int) (orgURL : String)
    (script : List TokenResponse) (v : String)
    (hhit : cacheGetAt now tc.accessToken = some v) (hv : v ≠ "") :
    JWKAuth.Authorize convert tc hdr method URL now orgURL script =
      { error := (cachedTokenAuthorize tc hdr method URL now v).1,
        headers := (cachedTokenAuthorize tc hdr method URL now v).2,
        cache := tc, endpointCalls := 0, invokedExchange := false } := by
  unfold JWKAuth.Authorize
  simp only [hhit]
  rw [if_neg hv]

/-- C2: whenever the token cache holds a live non-empty access token,
every `Authorize` call (PrivateKeyAuth, JWTAuth, JWKAuth) issues zero
token-endpoint requests — the credential-acquisition function
`getAccessTokenForPrivateKey` is not invoked — and appends the cached
token to the request's `Authorization` header, leaving the cache
unchanged; consequently two consecutive `Authorize` calls while the
credential is live issue zero token-endpoint requests in total. -/
theorem c2_cached_credential_reuse (convert : Except String String)
    (tc : TokenCache) (hdr : ReqHeaders) (method URL : String) (now : Int)
    (orgURL : String) (script : List TokenResponse) (v : String)
    (hhit : cacheGetAt now tc.accessToken = some v) (hv : v ≠ "") :
    ((PrivateKeyAuth.Authorize tc hdr method URL now orgURL script).endpointCalls = 0 ∧
      (PrivateKeyAuth.Authorize tc hdr method URL now orgURL script).invokedExchange = false ∧
      (PrivateKeyAuth.Authorize tc hdr method URL now orgURL script).headers.authorization =
        hdr.authorization ++ [v] ∧
      (PrivateKeyAuth.Authorize tc hdr method URL now orgURL script).cache = tc) ∧
    ((JWTAuth.Authorize tc hdr method URL now orgURL script).endpointCalls = 0 ∧
      (JWTAuth.Authorize tc hdr method URL now orgURL script).invokedExchange = false ∧
      (JWTAuth.Authorize tc hdr method URL now orgURL script).headers.authorization =
        hdr.authorization ++ [v] ∧
      (JWTAuth.Authorize tc hdr method URL now orgURL script).cache = tc) ∧
    ((JWKAuth.Authorize convert tc hdr method URL now orgURL script).endpointCalls = 0 ∧
      (JWKAuth.Authorize convert tc hdr method URL now orgURL script).invokedExchange = false ∧
      (JWKAuth.Authorize convert tc hdr method URL now orgURL script).headers.authorization =
        hdr.authorization ++ [v] ∧
      (JWKAuth.Authorize convert tc hdr method URL now orgURL script).cache = tc) ∧
    (∀ (now2 : Int) (v2 : String), cacheGetAt now2 tc.accessToken = some v2 → v2 ≠ "" →
      (PrivateKeyAuth.Authorize tc hdr method URL now orgURL script).endpointCalls +
        (PrivateKeyAuth.Authorize
          (PrivateKeyAuth.Authorize tc hdr method URL now orgURL script).cache
          (PrivateKeyAuth.Authorize tc hdr method URL now orgURL script).headers
          method URL now2 orgURL script).endpointCalls = 0) := by
  have hpk := privateKeyAuthorize_hit tc hdr method URL now orgURL script v hhit hv
  have hjwt := jwtAuthorize_hit tc hdr method URL now orgURL script v hhit hv
  have hjwk := jwkAuthorize_hit convert tc hdr method URL now orgURL script v hhit hv
  have hauth := cachedTokenAuthorize_authorization tc hdr method URL now v
  refine ⟨⟨?_, ?_, ?_, ?_⟩, ⟨?_, ?_, ?_, ?_⟩, ⟨?_, ?_, ?_, ?_⟩, ?_⟩
  · rw [hpk]
  · rw [hpk]
  · rw [hpk]
    exact hauth
  · rw [hpk]
  · rw [hjwt]
  · rw [hjwt]
  · rw [hjwt]
    exact hauth
  · rw [hjwt]
  · rw [hjwk]
  · rw [hjwk]
  · rw [hjwk]
    exact hauth
  · rw [hjwk]
  · intro now2 v2 hhit2 hv2
    have h1calls : (PrivateKeyAuth.Authorize tc hdr method URL now orgURL script).endpointCalls = 0 := by
      rw [hpk]
    have hcache : (PrivateKeyAuth.Authorize tc hdr method URL now orgURL script).cache = tc := by
      rw [hpk]
    have hsecond := privateKeyAuthorize_hit tc
      (PrivateKeyAuth.Authorize tc hdr method URL now orgURL script).headers
      method URL now2 orgURL script v2 hhit2 hv2
    rw [h1calls, hcache, hsecond]
    rfl

/-- A token cache holding a live `Bearer xyz` credential until instant 100. -/
def liveTC : TokenCache :=
  { accessToken := some (("Bearer xyz"), 100), nonce := none, dpopKey := none }

/-- C2 witness: with a live cached credential `Bearer xyz` (expiry 100),
two consecutive PrivateKeyAuth `Authorize` calls at instants 5 and 6
issue zero token-endpoint requests, attach the cached value, and leave
the cache unchanged; obtained by applying `c2_cached_credential_reuse`. -/
theorem c2_cached_credential_reuse_witness :
    ((PrivateKeyAuth.Authorize liveTC emptyHdr ("GET") ("https://org/api") 5
        ("https://org") []).endpointCalls = 0 ∧
      (PrivateKeyAuth.Authorize liveTC emptyHdr ("GET") ("https://org/api") 5
        ("https://org") []).invokedExchange = false ∧
      (PrivateKeyAuth.Authorize liveTC emptyHdr ("GET") ("https://org/api") 5
        ("https://org") []).headers.authorization =
        emptyHdr.authorization ++ [("Bearer xyz")] ∧
      (PrivateKeyAuth.Authorize liveTC emptyHdr ("GET") ("https://org/api") 5
        ("https://org") []).cache = liveTC) ∧
    (PrivateKeyAuth.Authorize liveTC emptyHdr ("GET") ("https://org/api") 5
        ("https://org") []).endpointCalls +
      (PrivateKeyAuth.Authorize
        (PrivateKeyAuth.Authorize liveTC emptyHdr ("GET") ("https://org/api") 5
          ("https://org") []).cache
        (PrivateKeyAuth.Authorize liveTC emptyHdr ("GET") ("https://org/api") 5
          ("https://org") []).headers
        ("GET") ("https://org/api") 6 ("https://org") []).endpointCalls = 0 := by
  have h := c2_cached_credential_reuse (.ok ("k")) liveTC emptyHdr ("GET")
    ("https://org/api") 5 ("https://org") [] ("Bearer xyz") (by decide) (by decide)
  exact ⟨h.1, h.2.2.2 6 ("Bearer xyz") (by decide) (by decide)⟩

/-- C10: every DPoP token-exchange attempt that receives a 2xx response
returns a `nil` error unconditionally — `getAccessTokenForDpopPrivateKey`
discards the `buildResponse` parse error, returning exactly the parse
outcome as the token — so a 2xx response whose body does not parse yields
`(nil token, nil error)`, which the `Authorize` caller then reports as the
`Empty access token` error rather than as a parse error. -/
theorem c10_dpop_2xx_discards_parse_error :
    (∀ (k : Nat) (orgURL n : String) (r : TokenResponse) (rest : List TokenResponse),
      r.statusCode < 300 →
      (getAccessTokenForDpopPrivateKey k orgURL n (r :: rest)).error = none ∧
      (getAccessTokenForDpopPrivateKey k orgURL n (r :: rest)).token = r.parsedToken) ∧
    (∀ (tc : TokenCache) (hdr : ReqHeaders) (method URL : String) (now : Int)
      (orgURL : String) (e1 r : TokenResponse) (rest : List TokenResponse),
      cacheGetAt now tc.accessToken = none →
      300 ≤ e1.statusCode →
      strContains e1.body ("invalid_dpop_proof") = true →
      r.statusCode < 300 →
      r.parsedToken = none →
      (PrivateKeyAuth.Authorize tc hdr method URL now orgURL (e1 :: r :: rest)).error =
        some .emptyToken) := by
  constructor
  · intro k orgURL n r rest hlt
    unfold getAccessTokenForDpopPrivateKey
    rw [if_neg (by omega)]
    exact ⟨rfl, rfl⟩
  · intro tc hdr method URL now orgURL e1 r rest hmiss h1 h2 hlt hparse
    unfold PrivateKeyAuth.Authorize
    simp only [hmiss]
    simp only [getAccessTokenForPrivateKey]
    rw [if_pos h1, if_pos h2]
    simp only [getAccessTokenForDpopPrivateKey]
    rw [if_neg (show ¬ 300 ≤ r.statusCode by omega), hparse]
    rfl

/-- C10 witness: applying `c10_dpop_2xx_discards_parse_error` at a 200
response with an unparsable body inside the DPoP handshake: the exchange
returns no token and no error, and `PrivateKeyAuth.Authorize` reports
`Empty access token`. -/
theorem c10_dpop_2xx_discards_parse_error_witness :
    ((getAccessTokenForDpopPrivateKey 0 ("https://org") ("abc")
      [{ statusCode := 200, body := "not json", dpopNonceHeader := "", parsedToken := none }]).error = none ∧
    (getAccessTokenForDpopPrivateKey 0 ("https://org") ("abc")
      [{ statusCode := 200, body := "not json", dpopNonceHeader := "", parsedToken := none }]).token = none) ∧
    (PrivateKeyAuth.Authorize emptyTC emptyHdr ("GET") ("https://org/api") 0 ("https://org")
      [{ statusCode := 400, body := "invalid_dpop_proof", dpopNonceHeader := "", parsedToken := none },
       { statusCode := 200, body := "not json", dpopNonceHeader := "", parsedToken := none }]).error =
      some .emptyToken := by
  have h := c10_dpop_2xx_discards_parse_error
  refine ⟨?_, ?_⟩
  · exact h.1 0 ("https://org") ("abc")
      { statusCode := 200, body := "not json", dpopNonceHeader := "", parsedToken := none }
      [] (by decide)
  · exact h.2 emptyTC emptyHdr ("GET") ("https://org/api") 0 ("https://org")
      { statusCode := 400, body := "invalid_dpop_proof", dpopNonceHeader := "", parsedToken := none }
      { statusCode := 200, body := "not json", dpopNonceHeader := "", parsedToken := none }
      [] rfl (by decide) (by decide) (by decide) rfl

/-- One HTTP response as seen by the request executor: its status code and
the parsed rate-limit headers (`Date`, `X-Rate-Limit-Limit`,
`X-Rate-Limit-Remaining`, `X-Rate-Limit-Reset`), each `none` when absent
or unparsable. -/
structure HttpResp where
  status : Nat
  dateHeader : Option Int
  rlLimit : Option Int
  rlRemaining : Option Int
  rlReset : Option Int
deriving Repr, DecidableEq

/-- The `RateLimit` record (okta/client.go lines 78-82). -/
structure RateLimit where
  limit : Int
  remaining : Int
  reset : Int
deriving Repr, DecidableEq

/-- Modelled from the spec: the Response Cache capability `Get(key)` (the
`Cache` interface's go-cache-backed implementation lives in this
repository outside okta/client.go).  The cache is a keyed store of prior
responses. -/
def cacheGet (c : List (String × HttpResp)) (k : String) : Option HttpResp :=
  (c.find? (fun p => p.1 == k)).map (fun p => p.2)

/-- Modelled from the spec: the Response Cache capability `Has(key)`. -/
def cacheHas (c : List (String × HttpResp)) (k : String) : Bool :=
  (cacheGet c k).isSome

/-- Modelled from the spec: the Response Cache capability `Delete(key)`. -/
def cacheDelete (c : List (String × HttpResp)) (k : String) : List (String × HttpResp) :=
  c.filter (fun p => !(p.1 == k))

/-- Modelled from the spec: the Response Cache capability `Set(key, resp)`. -/
def cacheSet (c : List (String × HttpResp)) (k : String) (v : HttpResp) :
    List (String × HttpResp) :=
  (k, v) :: cacheDelete c k

theorem cacheGet_delete (c : List (String × HttpResp)) (k : String) :
    cacheGet (cacheDelete c k) k = none := by
  induction c with
  | nil => rfl
  | cons p rest ih =>
    by_cases h : p.1 == k
    · simpa [cacheDelete, cacheGet, List.filter_cons, h] using ih
    · simp only [cacheDelete, List.filter_cons, h] at ih ⊢
      simpa [cacheGet, List.find?_cons, h] using ih

theorem cacheHas_delete (c : List (String × HttpResp)) (k : String) :
    cacheHas (cacheDelete c k) k = false := by
  simp [cacheHas, cacheGet_delete]

/-- The mutable per-client state touched by the request executor: the
response cache, the one-shot `freshcache` flag and the shared
`rateLimit` record (`APIClient` fields, okta/client.go lines 86-93). -/
structure ClientState where
  cache : List (String × HttpResp)
  freshcache : Bool
  rateLimit : Option RateLimit
deriving Repr, DecidableEq

/-- Observable steps of one executor call, in order of occurrence. -/
inductive DoEvent where
  | evict (key : String)
  | rateWait (seconds : Int)
  | dispatch
deriving Repr, DecidableEq

/-- The executor call's outcome: a response served from the cache, a
response obtained from the network, a cancellation error (`ctx.Err()`),
or a dispatch failure from `doWithRetries`. -/
inductive DoResult where
  | fromCache (r : HttpResp)
  | fromNetwork (r : HttpResp)
  | canceled
  | failed
deriving Repr, DecidableEq

/-- Full outcome of one executor call: the result, the state afterwards,
the event trace, whether the request was dispatched to the network, and
the instant of dispatch. -/
structure DoOut where
  result : DoResult
  state : ClientState
  events : List DoEvent
  dispatched : Bool
  dispatchTime : Option Int
deriving Repr, DecidableEq

/-- Embedding of `APIClient.parseLimitHeaders` (okta/client.go lines
1728-1746): `Atoi` of `X-Rate-Limit-Limit` and `X-Rate-Limit-Remaining`
(plain, non-permanent errors), then `Get429BackoffTime` for the reset
delta. -/
def APIClient.parseLimitHeaders (r : HttpResp) : Except GoErr RateLimit :=
  match r.rlLimit with
  | none => .error { permanent := false, msg := "X-Rate-Limit-Limit missing or invalid" }
  | some l =>
    match r.rlRemaining with
    | none => .error { permanent := false, msg := "X-Rate-Limit-Remaining missing or invalid" }
    | some rem =>
      match Get429BackoffTime r.dateHeader r.rlReset with
      | .error e => .error e
      | .ok rst => .ok { limit := l, remaining := rem, reset := rst }

/-- The dispatch-and-store tail of the executor (okta/client.go lines
1346-1361): run `doWithRetries` (its outcome is the scripted `netResp`,
`none` modelling a terminal dispatch error); on a 2xx response to a GET,
update the shared rate-limit record from the response headers when rate
limiting is enabled (parse failures leave it unchanged) and store the
response in the cache. -/
def doDispatch (cache2 : List (String × HttpResp)) (rl : Option RateLimit)
    (rateLimitEnabled : Bool) (method key : String) (preEvents : List DoEvent)
    (t : Int) (netResp : Option HttpResp) : DoOut :=
  match netResp with
  | none =>
    { result := .failed,
      state := { cache := cache2, freshcache := false, rateLimit := rl },
      events := preEvents ++ [.dispatch], dispatched := true, dispatchTime := some t }
  | some r =>
    if 200 ≤ r.status ∧ r.status ≤ 299 ∧ method = ("GET") then
      let rl2 := if rateLimitEnabled then
          (match APIClient.parseLimitHeaders r with
            | .ok l => some l
            | .error _ => rl)
        else rl
      { result := .fromNetwork r,
        state := { cache := cacheSet cache2 key r, freshcache := false, rateLimit := rl2 },
        events := preEvents ++ [.dispatch], dispatched := true, dispatchTime := some t }
    else
      { result := .fromNetwork r,
        state := { cache := cache2, freshcache := false, rateLimit := rl },
        events := preEvents ++ [.dispatch], dispatched := true, dispatchTime := some t }

/-- Embedding of `APIClient.do` (okta/client.go lines 1318-1364; named
`doReq` because `do` is reserved in Lean).  In source order: a non-GET
request first deletes the fingerprint's cache entry; the `freshcache`
flag forces a second delete, a miss, and is cleared; on a miss, when rate
limiting is enabled and the tracked record has `remaining <= 0`, the call
waits `reset` seconds on a timer (a non-positive duration fires
immediately) in a select against the caller's cancellation signal —
`cancelDuringWait` tells which arm fires — returning `ctx.Err()` without
dispatching when cancelled; otherwise it dispatches via `doDispatch`.  On
a hit the cached response is returned with no rate-limit wait and no
dispatch. -/
def APIClient.doReq (st : ClientState) (rateLimitEnabled : Bool) (method key : String)
    (now : Int) (cancelDuringWait : Bool) (netResp : Option HttpResp) : DoOut :=
  let cache1 := if method ≠ ("GET") then cacheDelete st.cache key else st.cache
  let ev1 : List DoEvent := if method ≠ ("GET") then [.evict key] else []
  let inCache0 := cacheHas cache1 key
  let cache2 := if st.freshcache then cacheDelete cache1 key else cache1
  let ev2 := ev1 ++ (if st.freshcache then [.evict key] else [])
  let inCache := if st.freshcache then false else inCache0
  if inCache then
    { result := match cacheGet cache2 key with
        | some v => .fromCache v
        | none => .failed,
      state := { cache := cache2, freshcache := false, rateLimit := st.rateLimit },
      events := ev2, dispatched := false, dispatchTime := none }
  else
    let gate := rateLimitEnabled && (match st.rateLimit with
      | some l => decide (l.remaining ≤ 0)
      | none => false)
    let gateWait : Int := match st.rateLimit with
      | some l => l.reset
      | none => 0
    if gate then
      if cancelDuringWait then
        { result := .canceled,
          state := { cache := cache2, freshcache := false, rateLimit := st.rateLimit },
          events := ev2 ++ [.rateWait gateWait], dispatched := false, dispatchTime := none }
      else
        doDispatch cache2 st.rateLimit rateLimitEnabled method key
          (ev2 ++ [.rateWait gateWait]) (now + max gateWait 0) netResp
    else
      doDispatch cache2 st.rateLimit rateLimitEnabled method key ev2 now netResp

theorem doDispatch_dispatches (cache2 : List (String × HttpResp)) (rl : Option RateLimit)
    (enabled : Bool) (method key : String) (pre : List DoEvent) (t : Int)
    (netResp : Option HttpResp) :
    (doDispatch cache2 rl enabled method key pre t netResp).dispatched = true ∧
    (doDispatch cache2 rl enabled method key pre t netResp).dispatchTime = some t := by
  rcases netResp with _ | r
  · exact ⟨rfl, rfl⟩
  · by_cases h : 200 ≤ r.status ∧ r.status ≤ 299 ∧ method = ("GET")
    · simp [doDispatch, h]
    · simp [doDispatch, h]

/-- C5: with rate limiting enabled, on a cache miss while the tracked
rate-limit record has `remaining = 0` and `reset = T`, the executor does
not dispatch before waiting the tracked `T` seconds — the dispatch
instant is `now + max T 0`, and whenever `T` was produced by
`parseLimitHeaders` from a response dated `d` with reset epoch `R`
(so `T = R − d + 1`) and the clock has only advanced (`d ≤ now`), the
dispatch instant lies strictly after the epoch `R`; if the caller's
cancellation signal fires during the wait, the call returns the
cancellation error and never dispatches; a cache hit is returned without
dispatching and without any rate-limit wait. -/
theorem c5_rate_limit_gating (st : ClientState) (method key : String) (now : Int)
    (cancel : Bool) (netResp : Option HttpResp) (L T : Int)
    (hfresh : st.freshcache = false)
    (hmiss : cacheHas st.cache key = false)
    (hrl : st.rateLimit = some { limit := L, remaining := 0, reset := T }) :
    (cancel = true →
      (APIClient.doReq st true method key now cancel netResp).result = .canceled ∧
      (APIClient.doReq st true method key now cancel netResp).dispatched = false) ∧
    (cancel = false →
      (APIClient.doReq st true method key now cancel netResp).dispatched = true ∧
      (APIClient.doReq st true method key now cancel netResp).dispatchTime =
        some (now + max T 0)) ∧
    (∀ (resp : HttpResp) (R d : Int), resp.dateHeader = some d → resp.rlReset = some R →
      ∀ l rem, APIClient.parseLimitHeaders resp =
          .ok { limit := l, remaining := rem, reset := T } →
        d ≤ now →
        ∀ dt, (APIClient.doReq st true method key now cancel netResp).dispatchTime = some dt →
          R < dt) ∧
    (∀ (st2 : ClientState) (v : HttpResp), st2.freshcache = false →
      cacheGet st2.cache key = some v →
      (APIClient.doReq st2 true ("GET") key now cancel netResp).result = .fromCache v ∧
      (APIClient.doReq st2 true ("GET") key now cancel netResp).dispatched = false ∧
      (∀ s, DoEvent.rateWait s ∉ (APIClient.doReq st2 true ("GET") key now cancel netResp).events)) := by
  have hc1 : cacheHas (if method ≠ ("GET") then cacheDelete st.cache key else st.cache) key
      = false := by
    by_cases hm : method = ("GET")
    · simp [hm, hmiss]
    · simp [hm, cacheHas_delete]
  have hred : APIClient.doReq st true method key now cancel netResp =
      (if cancel then
        { result := .canceled,
          state := { cache := (if method ≠ ("GET") then cacheDelete st.cache key else st.cache),
                     freshcache := false, rateLimit := st.rateLimit },
          events := (if method ≠ ("GET") then [DoEvent.evict key] else []) ++ [DoEvent.rateWait T],
          dispatched := false, dispatchTime := none }
      else
        doDispatch (if method ≠ ("GET") then cacheDelete st.cache key else st.cache)
          st.rateLimit true method key
          ((if method ≠ ("GET") then [DoEvent.evict key] else []) ++ [DoEvent.rateWait T])
          (now + max T 0) netResp) := by
    unfold APIClient.doReq
    simp only [hfresh, hrl, hc1, if_false, Bool.false_eq_true, ite_false]
    simp
  refine ⟨?_, ?_, ?_, ?_⟩
  · intro hcancel
    rw [hred, if_pos hcancel]
    exact ⟨rfl, rfl⟩
  · intro hcancel
    rw [hred, if_neg (by simp [hcancel])]
    exact ⟨(doDispatch_dispatches _ _ _ _ _ _ _ _).1, (doDispatch_dispatches _ _ _ _ _ _ _ _).2⟩
  · intro resp R d hd hR l rem hparse hdle dt hdt
    have hT : T = R - d + 1 := by
      unfold APIClient.parseLimitHeaders at hparse
      rcases hL : resp.rlLimit with _ | lv
      · rw [hL] at hparse
        exact absurd hparse (by simp)
      · rw [hL] at hparse
        rcases hRem : resp.rlRemaining with _ | rv
        · rw [hRem] at hparse
          exact absurd hparse (by simp)
        · rw [hRem] at hparse
          rw [show Get429BackoffTime resp.dateHeader resp.rlReset = .ok (R - d + 1) by
            simp [Get429BackoffTime, hd, hR]] at hparse
          have := (Except.ok.injEq _ _).mp hparse
          have hfields := RateLimit.mk.injEq .. ▸ this
          cases this
          rfl
    rcases hcancel : cancel with _ | _
    · rw [hred, if_neg (by simp [hcancel])] at hdt
      rw [(doDispatch_dispatches _ _ _ _ _ _ _ _).2] at hdt
      have hdt2 : dt = now + max T 0 := by
        exact (Option.some.injEq _ _).mp hdt.symm
      have hmax : T ≤ max T 0 := le_max_left T 0
      omega
    · rw [hred] at hdt
      simp [hcancel] at hdt
  · intro st2 v hfresh2 hget2
    have hhas2 : cacheHas st2.cache key = true := by
      simp [cacheHas, hget2]
    have hred2 : APIClient.doReq st2 true ("GET") key now cancel netResp =
        { result := match cacheGet st2.cache key with
            | some w => .fromCache w
            | none => .failed,
          state := { cache := st2.cache, freshcache := false, rateLimit := st2.rateLimit },
          events := [], dispatched := false, dispatchTime := none } := by
      unfold APIClient.doReq
      simp [hfresh2, hhas2]
    refine ⟨?_, ?_, ?_⟩
    · rw [hred2]
      simp [hget2]
    · rw [hred2]
    · intro s
      rw [hred2]
      simp

/-- A client state with empty cache and an exhausted rate limit
(`remaining = 0`, tracked reset delta 5 seconds). -/
def rlState : ClientState :=
  { cache := [], freshcache := false,
    rateLimit := some { limit := 100, remaining := 0, reset := 5 } }

/-- A 200 response dated at epoch 10 whose rate-limit headers parse to
limit 7, remaining 3 and reset epoch 14. -/
def rlResp : HttpResp :=
  { status := 200, dateHeader := some 10, rlLimit := some 7,
    rlRemaining := some 3, rlReset := some 14 }

/-- A client state whose cache holds `rlResp` under the key `k`. -/
def hitState : ClientState :=
  { cache := [(("k"), rlResp)], freshcache := false,
    rateLimit := some { limit := 100, remaining := 0, reset := 5 } }

/-- C5 witness: applying `c5_rate_limit_gating` at `remaining = 0`,
`reset = 5`, `now = 10`: without cancellation the call dispatches at
instant `10 + max 5 0`; with cancellation it returns the cancellation
error and never dispatches; the tracked reset 5 coming from a response
dated 10 with reset epoch 14 puts the dispatch instant 15 strictly after
epoch 14; and a cache hit is served without dispatch or rate wait. -/
theorem c5_rate_limit_gating_witness :
    ((APIClient.doReq rlState true ("GET") ("k") 10 false (some rlResp)).dispatched = true ∧
      (APIClient.doReq rlState true ("GET") ("k") 10 false (some rlResp)).dispatchTime =
        some (10 + max 5 0)) ∧
    ((APIClient.doReq rlState true ("GET") ("k") 10 true (some rlResp)).result = .canceled ∧
      (APIClient.doReq rlState true ("GET") ("k") 10 true (some rlResp)).dispatched = false) ∧
    ((14 : Int) < 15) ∧
    ((APIClient.doReq hitState true ("GET") ("k") 10 false (some rlResp)).result =
        .fromCache rlResp ∧
      (APIClient.doReq hitState true ("GET") ("k") 10 false (some rlResp)).dispatched = false ∧
      DoEvent.rateWait 5 ∉ (APIClient.doReq hitState true ("GET") ("k") 10 false (some rlResp)).events) := by
  have h := c5_rate_limit_gating rlState ("GET") ("k") 10 false (some rlResp) 100 5
    rfl rfl rfl
  have hcan := c5_rate_limit_gating rlState ("GET") ("k") 10 true (some rlResp) 100 5
    rfl rfl rfl
  refine ⟨h.2.1 rfl, hcan.1 rfl, ?_, ?_⟩
  · exact h.2.2.1 rlResp 14 10 rfl rfl 7 3 rfl (by norm_num) 15 rfl
  · have h4 := h.2.2.2 hitState rlResp rfl (by decide)
    exact ⟨h4.1, h4.2.1, h4.2.2 5⟩

theorem doDispatch_events_eq (cache2 : List (String × HttpResp)) (rl : Option RateLimit)
    (enabled : Bool) (method key : String) (pre : List DoEvent) (t : Int)
    (netResp : Option HttpResp) :
    (doDispatch cache2 rl enabled method key pre t netResp).events =
      pre ++ [DoEvent.dispatch] := by
  rcases netResp with _ | r
  · rfl
  · by_cases h : 200 ≤ r.status ∧ r.status ≤ 299 ∧ method = ("GET") <;> simp [doDispatch, h]

theorem doDispatch_cache_nonget (cache2 : List (String × HttpResp)) (rl : Option RateLimit)
    (enabled : Bool) (method key : String) (pre : List DoEvent) (t : Int)
    (netResp : Option HttpResp) (hm : method ≠ ("GET")) :
    (doDispatch cache2 rl enabled method key pre t netResp).state.cache = cache2 := by
  rcases netResp with _ | r
  · rfl
  · have hcond : ¬(200 ≤ r.status ∧ r.status ≤ 299 ∧ method = ("GET")) := fun h => hm h.2.2
    simp [doDispatch, hcond]

theorem doDispatch_not_fromCache (cache2 : List (String × HttpResp)) (rl : Option RateLimit)
    (enabled : Bool) (method key : String) (pre : List DoEvent) (t : Int)
    (netResp : Option HttpResp) (v : HttpResp) :
    (doDispatch cache2 rl enabled method key pre t netResp).result ≠
      DoResult.fromCache v := by
  rcases netResp with _ | r
  · simp [doDispatch]
  · by_cases h : 200 ≤ r.status ∧ r.status ≤ 299 ∧ method = ("GET") <;> simp [doDispatch, h]

/-- C7: every non-GET executor call evicts the request fingerprint's cache
entry before anything else — the eviction is the first observable event,
ahead of the rate-limit gate, dispatch and retry logic — the entry is
absent afterwards whatever the call's outcome (the store step only runs
for GET), and such a call is never served from the cache. -/
theorem c7_nonget_evicts_first (st : ClientState) (enabled : Bool) (method key : String)
    (now : Int) (cancel : Bool) (netResp : Option HttpResp)
    (hm : method ≠ ("GET")) :
    (APIClient.doReq st enabled method key now cancel netResp).events.head? =
      some (.evict key) ∧
    cacheHas (APIClient.doReq st enabled method key now cancel netResp).state.cache key =
      false ∧
    (∀ v, (APIClient.doReq st enabled method key now cancel netResp).result ≠
      .fromCache v) := by
  unfold APIClient.doReq
  cases hf : st.freshcache <;>
    refine ⟨?_, ?_, ?_⟩ <;>
      simp [hm, hf, cacheHas_delete, doDispatch_events_eq, doDispatch_cache_nonget,
        doDispatch_not_fromCache] <;>
        split_ifs <;>
          simp [doDispatch_events_eq, doDispatch_cache_nonget, doDispatch_not_fromCache,
            cacheHas_delete, hm]

/-- C7 witness: applying `c7_nonget_evicts_first` to a POST for a
fingerprint whose entry is cached: the first event is the eviction, the
entry is gone afterwards, and the result does not come from the cache. -/
theorem c7_nonget_evicts_first_witness :
    (APIClient.doReq hitState true ("POST") ("k") 10 false (some rlResp)).events.head? =
      some (.evict ("k")) ∧
    cacheHas (APIClient.doReq hitState true ("POST") ("k") 10 false
      (some rlResp)).state.cache ("k") = false ∧
    (APIClient.doReq hitState true ("POST") ("k") 10 false (some rlResp)).result ≠
      .fromCache rlResp := by
  have h := c7_nonget_evicts_first hitState true ("POST") ("k") 10 false (some rlResp)
    (by decide)
  exact ⟨h.1, h.2.1, h.2.2 rlResp⟩
